import Mathlib

/-!
# Chumcred Digital Vault — verification of the subscription / access-gating core

Shallow embedding of the subscription ledger, access policy decisions and the
admin payment-approval workflow of the Chumcred Vault application
(`db.py`, `billing.py`, `pages/1_Dashboard.py`, `pages/2_Upload_New.py`,
`pages/5_Admin_Panel.py`), together with theorems settling the spec claims.

Dates are embedded as proleptic-Gregorian day numbers (days since 1970-01-01,
the standard civil-calendar bijection), so that Python's
`date.fromisoformat`, date comparison and `date + timedelta(days=n)` become
parsing to a day number, integer comparison and integer addition.
`dt.date.today()` is an ambient input in the source; here it is an explicit
`today` argument.
-/

namespace Vault

/-! ## Calendar dates -/

/-- A parsed calendar date (what `datetime.date.fromisoformat` yields). -/
structure Date where
  year : Nat
  month : Nat
  day : Nat
  deriving Repr, DecidableEq

/-- Length of a month in the Gregorian calendar, as Python's `datetime` uses. -/
def daysInMonth (y m : Nat) : Nat :=
  if m = 2 then
    if (y % 4 = 0 ∧ y % 100 ≠ 0) ∨ y % 400 = 0 then 29 else 28
  else if m = 4 ∨ m = 6 ∨ m = 9 ∨ m = 11 then 30
  else 31

/-- Validity constraint enforced by `datetime.date`: year 1..9999, real month/day. -/
def validDate (y m d : Nat) : Bool :=
  1 ≤ y && y ≤ 9999 && 1 ≤ m && m ≤ 12 && 1 ≤ d && d ≤ daysInMonth y m

/-- Day number of a civil date: days since 1970-01-01 (negative before).
Standard days-from-civil computation; strictly monotone in (year, month, day),
and adding `n` days to a date adds `n` here. -/
def toDayNumber (dte : Date) : Int :=
  let y : Int := if dte.month ≤ 2 then (dte.year : Int) - 1 else (dte.year : Int)
  let era : Int := y / 400
  let yoe : Int := y - era * 400
  let mp : Int := ((dte.month : Int) + 9) % 12
  let doy : Int := (153 * mp + 2) / 5 + (dte.day : Int) - 1
  let doe : Int := yoe * 365 + yoe / 4 - yoe / 100 + doy
  era * 146097 + doe - 719468

/-- Numeric value of a decimal digit character. -/
def digitVal (c : Char) : Nat := c.toNat - 48

/-- `datetime.date.fromisoformat`: parse `"YYYY-MM-DD"`; `none` exactly when
the string is not a well-formed ISO calendar date (Python raises `ValueError`,
which every caller in `db.py` catches). -/
def fromisoformat (s : String) : Option Date :=
  match s.toList with
  | [y1, y2, y3, y4, s1, m1, m2, s2, d1, d2] =>
    if s1 = '-' ∧ s2 = '-' ∧
       y1.isDigit ∧ y2.isDigit ∧ y3.isDigit ∧ y4.isDigit ∧
       m1.isDigit ∧ m2.isDigit ∧ d1.isDigit ∧ d2.isDigit then
      let y := ((digitVal y1 * 10 + digitVal y2) * 10 + digitVal y3) * 10 + digitVal y4
      let m := digitVal m1 * 10 + digitVal m2
      let d := digitVal d1 * 10 + digitVal d2
      if validDate y m d then some ⟨y, m, d⟩ else none
    else none
  | _ => none

/-! ## Data model (`users` / `payments` rows of `db.py`) -/

/-- A row of the `users` table (the subscription-relevant columns).
`Option` fields are SQL-nullable columns. Monetary amounts are embedded as
integers (the code only stores and displays them; it never does fractional
arithmetic on them). -/
structure User where
  id : Nat
  full_name : String
  email : String
  password_hash : String
  is_admin : Bool
  plan : Option String
  subscription_start : Option String
  subscription_end : Option String
  is_premium : Bool
  last_payment_amount : Option Int
  last_payment_currency : Option String
  last_payment_provider : Option String
  payment_status : Option String
  deriving Repr, DecidableEq

/-- A row of the `payments` table. -/
structure Payment where
  id : Nat
  user_id : Nat
  provider : String
  currency : String
  amount : Int
  reference : String
  raw_json : Option String
  deriving Repr, DecidableEq

/-- The persistent store: `users` and `payments` tables plus the AUTOINCREMENT
counters for their primary keys. -/
structure DB where
  users : List User
  payments : List Payment
  nextUserId : Nat
  nextPaymentId : Nat
  deriving Repr, DecidableEq

/-! ## Subscription status (`db.py`) -/

/-- `GRACE_DAYS = int(os.getenv("GRACE_DAYS", "7"))` — the deployed default. -/
def GRACE_DAYS : Int := 7

/-- `db.compute_subscription_status`: returns `"active"`, `"grace"` or
`"expired"`; a missing, empty or unparseable `subscription_end` is
`"expired"` (the `except` branch returns rather than raising). -/
def compute_subscription_status (graceDays : Int) (today : Int) (u : User) : String :=
  match u.subscription_end with
  | none => "expired"
  | some end_str =>
    if end_str = "" then "expired"
    else
      match fromisoformat end_str with
      | none => "expired"
      | some e =>
        if today ≤ toDayNumber e then "active"
        else if today ≤ toDayNumber e + graceDays then "grace"
        else "expired"

/-- `db.subscription_days_left`: days until the end date, `0` if missing or
invalid, negative inside or past grace. -/
def subscription_days_left (today : Int) (u : User) : Int :=
  match u.subscription_end with
  | none => 0
  | some end_str =>
    if end_str = "" then 0
    else
      match fromisoformat end_str with
      | none => 0
      | some e => toDayNumber e - today

/-! ## Access policy decisions (`billing.py`, `pages/1_Dashboard.py`,
`pages/2_Upload_New.py`) -/

/-- Outcome of a page-level access check: proceed, proceed with a warning
banner (`st.warning`), or `st.error` + `st.stop`. -/
inductive Decision where
  | allow : Decision
  | allowWithWarning : String → Decision
  | deny : String → Decision
  deriving Repr, DecidableEq

/-- `FREE_LIMIT = 5` (`billing.py`, `pages/2_Upload_New.py`). -/
def FREE_LIMIT : Nat := 5

/-- Python `str.upper` on the ASCII plan tags stored by the app. -/
def pyUpper (s : String) : String :=
  String.mk (s.toList.map Char.toUpper)

/-- `(user.get("plan") or "FREE").upper()` — `None` and `""` are falsy. -/
def effectivePlan (u : User) : String :=
  pyUpper (match u.plan with
           | none => "FREE"
           | some p => if p = "" then "FREE" else p)

/-- The UPLOAD gate of `pages/2_Upload_New.py` `main` (lines 45–71): FREE users
are capped at `FREE_LIMIT` regardless of subscription fields; subscribed users
are stopped when expired and warned in grace. -/
def upload_decision (graceDays : Int) (today : Int) (u : User) (used : Nat) : Decision :=
  if effectivePlan u = "FREE" then
    if used ≥ FREE_LIMIT then
      .deny "free limit reached — upgrade/subscribe to continue uploading"
    else .allow
  else
    let status := compute_subscription_status graceDays today u
    if status = "expired" then
      .deny "subscription expired — uploads disabled until admin confirms renewal"
    else if status = "grace" then
      .allowWithWarning "grace period — renew soon to avoid lockout"
    else .allow

/-- The VIEW gate of `pages/1_Dashboard.py` `show_plan_status`: FREE users see
a usage banner and proceed; ANNUAL active proceeds, grace warns, expired is a
hard `st.stop`. -/
def view_decision (graceDays : Int) (today : Int) (u : User) : Decision :=
  if effectivePlan u = "FREE" then .allow
  else
    let status := compute_subscription_status graceDays today u
    if status = "active" then .allow
    else if status = "grace" then
      .allowWithWarning "grace period — renew soon to avoid lockout"
    else .deny "subscription expired — locked until admin confirms renewal"

/-- `billing.guard_access`: stops only users with a non-FREE plan whose
subscription is expired; everyone else passes. -/
def guard_access (graceDays : Int) (today : Int) (u : User) : Decision :=
  if effectivePlan u ≠ "FREE" ∧
     compute_subscription_status graceDays today u = "expired" then
    .deny "subscription expired — access locked until payment confirmed by admin"
  else .allow

/-! ## Ledger operations (`db.py`) -/

/-- `UPDATE users SET ... WHERE id=?` — apply `f` to every row matching `uid`. -/
def updateUser (db : DB) (uid : Nat) (f : User → User) : DB :=
  { db with users := db.users.map fun u => if u.id = uid then f u else u }

/-- `db.get_user_by_email`: `SELECT * FROM users WHERE email=?` (first row). -/
def get_user_by_email (db : DB) (email : String) : Option User :=
  db.users.find? fun u => u.email = email

/-- `generate_password_hash` (werkzeug) — an external credential-store
primitive, out of the core's scope; embedded as an injective tagging. -/
def generate_password_hash (password : String) : String :=
  "pbkdf2-sha256$" ++ password

/-- `db.create_user`: returns `none` and inserts nothing when a user with the
same email exists; otherwise inserts a row whose unset columns take the table
defaults (`plan DEFAULT 'FREE'`, others NULL/0) and returns the new user. -/
def create_user (db : DB) (full_name email password : String)
    (is_admin : Bool := false) : DB × Option User :=
  match get_user_by_email db email with
  | some _ => (db, none)
  | none =>
    let u : User :=
      { id := db.nextUserId
        full_name := full_name
        email := email
        password_hash := generate_password_hash password
        is_admin := is_admin
        plan := some "FREE"
        subscription_start := none
        subscription_end := none
        is_premium := false
        last_payment_amount := none
        last_payment_currency := none
        last_payment_provider := none
        payment_status := none }
    let db' := { db with users := db.users ++ [u], nextUserId := db.nextUserId + 1 }
    (db', get_user_by_email db' email)

/-- `db.update_password`. -/
def update_password (db : DB) (uid : Nat) (new_password : String) : DB :=
  updateUser db uid fun u =>
    { u with password_hash := generate_password_hash new_password }

/-- `db.update_emergency_contact` — touches only the emergency columns, which
are not part of the subscription ledger; embedded as the identity row update
on the modelled columns. -/
def update_emergency_contact (db : DB) (uid : Nat) : DB :=
  updateUser db uid fun u => u

/-- `db.set_admin_flag`. -/
def set_admin_flag (db : DB) (uid : Nat) (flag : Bool) : DB :=
  updateUser db uid fun u => { u with is_admin := flag }

/-- `db.record_payment_submission`: unconditionally inserts the submission row
and marks the user `payment_status = 'pending'` (no validation of amount or
reference anywhere in the function). -/
def record_payment_submission (db : DB) (uid : Nat) (provider currency : String)
    (amount : Int) (reference : String) (raw_json : Option String := none) : DB :=
  let p : Payment :=
    { id := db.nextPaymentId
      user_id := uid
      provider := provider
      currency := currency
      amount := amount
      reference := reference
      raw_json := raw_json }
  let db1 := { db with payments := db.payments ++ [p],
                       nextPaymentId := db.nextPaymentId + 1 }
  updateUser db1 uid fun u => { u with payment_status := some "pending" }

/-- `db.update_payment_status`. -/
def update_payment_status (db : DB) (uid : Nat) (status : String) : DB :=
  updateUser db uid fun u => { u with payment_status := some status }

/-- A row of the admin's pending list: payment columns joined with the owning
user's columns (`p.* , u.full_name, u.email, u.payment_status, u.plan,
u.subscription_end`). -/
structure PendingRow where
  pid : Nat
  user_id : Nat
  provider : String
  currency : String
  amount : Int
  reference : String
  full_name : String
  email : String
  payment_status : Option String
  user_plan : Option String
  user_subscription_end : Option String
  deriving Repr, DecidableEq

/-- Insertion sort of pending rows by payment id, descending
(`ORDER BY p.id DESC`). -/
def insertByPidDesc (r : PendingRow) : List PendingRow → List PendingRow
  | [] => [r]
  | x :: xs => if x.pid ≤ r.pid then r :: x :: xs else x :: insertByPidDesc r xs

def sortByPidDesc : List PendingRow → List PendingRow
  | [] => []
  | x :: xs => insertByPidDesc x (sortByPidDesc xs)

/-- The SELECT list of `list_pending_payments`: payment columns plus the
joined user's columns. -/
def pendingRow (p : Payment) (u : User) : PendingRow :=
  { pid := p.id
    user_id := p.user_id
    provider := p.provider
    currency := p.currency
    amount := p.amount
    reference := p.reference
    full_name := u.full_name
    email := u.email
    payment_status := u.payment_status
    user_plan := u.plan
    user_subscription_end := u.subscription_end }

/-- `db.list_pending_payments`: join `payments` with `users`, keep rows whose
user is currently `payment_status = 'pending'`, newest payment first. -/
def list_pending_payments (db : DB) : List PendingRow :=
  sortByPidDesc <|
    db.payments.flatMap fun p =>
      (db.users.filter fun u =>
          u.id = p.user_id ∧ u.payment_status = some "pending").map (pendingRow p)

/-- ISO formatting of a day-of-month or month (`date.isoformat` pieces),
two digits zero-padded. -/
def pad2 (n : Nat) : List Char :=
  [Char.ofNat (48 + n / 10 % 10), Char.ofNat (48 + n % 10)]

/-- Four-digit zero-padded year. -/
def pad4 (n : Nat) : List Char :=
  [Char.ofNat (48 + n / 1000 % 10), Char.ofNat (48 + n / 100 % 10),
   Char.ofNat (48 + n / 10 % 10), Char.ofNat (48 + n % 10)]

/-- `datetime.date.isoformat`: `"YYYY-MM-DD"`. -/
def isoformat (dte : Date) : String :=
  String.mk (pad4 dte.year ++ '-' :: pad2 dte.month ++ '-' :: pad2 dte.day)

/-- `db.set_subscription`: the admin-approval ledger write — one SQL UPDATE
setting plan, window, premium flag, last-payment details and
`payment_status='active'` together. -/
def set_subscription (db : DB) (uid : Nat) (start «end» : Date) (amount : Int)
    (currency provider : String) : DB :=
  updateUser db uid fun u =>
    { u with
      plan := some "ANNUAL"
      subscription_start := some (isoformat start)
      subscription_end := some (isoformat «end»)
      is_premium := true
      last_payment_amount := some amount
      last_payment_currency := some currency
      last_payment_provider := some provider
      payment_status := some "active" }

/-! ## Admin authorization and the approval flow (`pages/5_Admin_Panel.py`) -/

/-- Python `str.strip`: drop leading and trailing whitespace. -/
def pyStrip (s : String) : String :=
  String.mk (((s.toList.dropWhile Char.isWhitespace).reverse.dropWhile
    Char.isWhitespace).reverse)

/-- Python `str.lower` on the ASCII addresses the app compares. -/
def pyLower (s : String) : String :=
  String.mk (s.toList.map Char.toLower)

/-- `is_admin_email`: `bool(email and email.strip().lower() in ADMIN_EMAILS)`;
`None` and the empty string are falsy. -/
def is_admin_email (adminEmails : List String) (email : Option String) : Bool :=
  match email with
  | none => false
  | some e => if e = "" then false else adminEmails.contains (pyLower (pyStrip e))

/-- `is_current_admin`: trust the session flag set at login, else fall back to
the env allow-list check on the current user's email. -/
def is_current_admin (adminEmails : List String) (sessionAdminFlag : Bool)
    (currentUser : Option User) : Bool :=
  sessionAdminFlag || is_admin_email adminEmails (currentUser.map (·.email))

/-- Outcome of an admin-panel action: the store afterwards, and the error
message when the page stopped instead of mutating. -/
structure AdminActionResult where
  db : DB
  error : Option String
  deriving Repr, DecidableEq

/-- The approve path of `pages/5_Admin_Panel.py`: `main` calls `require_admin`
(`st.stop` on failure, before any mutation); the Approve button then checks
`user_id` for truthiness (`None` or `0` fails) and calls `set_subscription`
followed by `update_payment_status(user_id, "active")`. -/
def admin_approve (adminEmails : List String) (sessionAdminFlag : Bool)
    (currentUser : Option User) (db : DB) (payment_user_id : Option Nat)
    (start «end» : Date) (amount : Int) (currency provider : String) :
    AdminActionResult :=
  if ¬ is_current_admin adminEmails sessionAdminFlag currentUser then
    { db := db, error := some "Access denied. Admins only." }
  else
    match payment_user_id with
    | none => { db := db
                error := some "Missing user_id on this payment record; cannot approve." }
    | some uid =>
      if uid = 0 then
        { db := db
          error := some "Missing user_id on this payment record; cannot approve." }
      else
        { db := update_payment_status
                  (set_subscription db uid start «end» amount currency provider)
                  uid "active"
          error := none }

/-- The reject path of `pages/5_Admin_Panel.py`: after `require_admin` and the
`user_id` truthiness check, `update_payment_status(user_id, "rejected")`. -/
def admin_reject (adminEmails : List String) (sessionAdminFlag : Bool)
    (currentUser : Option User) (db : DB) (payment_user_id : Option Nat) :
    AdminActionResult :=
  if ¬ is_current_admin adminEmails sessionAdminFlag currentUser then
    { db := db, error := some "Access denied. Admins only." }
  else
    match payment_user_id with
    | none => { db := db
                error := some "Missing user_id on this payment record; cannot reject." }
    | some uid =>
      if uid = 0 then
        { db := db
          error := some "Missing user_id on this payment record; cannot reject." }
      else
        { db := update_payment_status db uid "rejected", error := none }

/-! ## Helper lemmas -/

theorem isDigit_ofNat_digit : ∀ k, k < 10 → (Char.ofNat (48 + k)).isDigit = true := by
  intro k hk
  interval_cases k <;> decide

theorem digitVal_ofNat_digit : ∀ k, k < 10 → digitVal (Char.ofNat (48 + k)) = k := by
  intro k hk
  interval_cases k <;> decide

theorem fromisoformat_empty : fromisoformat "" = none := rfl

theorem daysInMonth_le_31 (y m : Nat) : daysInMonth y m ≤ 31 := by
  unfold daysInMonth
  split_ifs <;> omega

/-- `isoformat` and `fromisoformat` are mutually inverse on valid dates: the
string an approval stores is read back as the same calendar date. -/
theorem fromisoformat_isoformat (dte : Date)
    (h : validDate dte.year dte.month dte.day = true) :
    fromisoformat (isoformat dte) = some dte := by
  obtain ⟨y, m, d⟩ := dte
  have h' := h
  simp only [validDate, Bool.and_eq_true, decide_eq_true_eq] at h'
  obtain ⟨⟨⟨⟨⟨hy1, hy2⟩, hm1⟩, hm2⟩, hd1⟩, hd2⟩ := h'
  have hd31 : d ≤ 31 := le_trans hd2 (daysInMonth_le_31 y m)
  have ha : y / 1000 % 10 < 10 := Nat.mod_lt _ (by norm_num)
  have hb : y / 100 % 10 < 10 := Nat.mod_lt _ (by norm_num)
  have hc : y / 10 % 10 < 10 := Nat.mod_lt _ (by norm_num)
  have hd' : y % 10 < 10 := Nat.mod_lt _ (by norm_num)
  have he : m / 10 % 10 < 10 := Nat.mod_lt _ (by norm_num)
  have hf : m % 10 < 10 := Nat.mod_lt _ (by norm_num)
  have hg : d / 10 % 10 < 10 := Nat.mod_lt _ (by norm_num)
  have hh : d % 10 < 10 := Nat.mod_lt _ (by norm_num)
  simp only [isoformat, pad4, pad2, fromisoformat, String.toList, String.mk,
    List.append_eq, List.cons_append, List.nil_append]
  rw [if_pos (by
    simp [isDigit_ofNat_digit _ ha, isDigit_ofNat_digit _ hb,
      isDigit_ofNat_digit _ hc, isDigit_ofNat_digit _ hd',
      isDigit_ofNat_digit _ he, isDigit_ofNat_digit _ hf,
      isDigit_ofNat_digit _ hg, isDigit_ofNat_digit _ hh])]
  rw [digitVal_ofNat_digit _ ha, digitVal_ofNat_digit _ hb,
      digitVal_ofNat_digit _ hc, digitVal_ofNat_digit _ hd',
      digitVal_ofNat_digit _ he, digitVal_ofNat_digit _ hf,
      digitVal_ofNat_digit _ hg, digitVal_ofNat_digit _ hh]
  have hyy : ((y / 1000 % 10 * 10 + y / 100 % 10) * 10 + y / 10 % 10) * 10 + y % 10 = y := by
    omega
  have hmm : m / 10 % 10 * 10 + m % 10 = m := by omega
  have hdd : d / 10 % 10 * 10 + d % 10 = d := by omega
  rw [hyy, hmm, hdd, if_pos h]

theorem isoformat_ne_empty (dte : Date) : isoformat dte ≠ "" := by
  intro h
  have h' := congrArg String.toList h
  simp [isoformat, pad4, pad2, String.toList] at h'

theorem mem_insertByPidDesc {x r : PendingRow} {l : List PendingRow} :
    x ∈ insertByPidDesc r l ↔ x = r ∨ x ∈ l := by
  induction l with
  | nil => simp [insertByPidDesc]
  | cons a as ih =>
    simp only [insertByPidDesc]
    split_ifs with h
    · simp
    · simp [ih]
      tauto

theorem mem_sortByPidDesc {x : PendingRow} {l : List PendingRow} :
    x ∈ sortByPidDesc l ↔ x ∈ l := by
  induction l with
  | nil => simp [sortByPidDesc]
  | cons a as ih => simp [sortByPidDesc, mem_insertByPidDesc, ih]

theorem head_insertByPidDesc (r : PendingRow) (l : List PendingRow) :
    (insertByPidDesc r l).head? = some r ∨ (insertByPidDesc r l).head? = l.head? := by
  cases l with
  | nil => simp [insertByPidDesc]
  | cons a as =>
    simp only [insertByPidDesc]
    split_ifs <;> simp

theorem chain'_insertByPidDesc (r : PendingRow) (l : List PendingRow)
    (h : List.Chain' (fun a b => b.pid ≤ a.pid) l) :
    List.Chain' (fun a b => b.pid ≤ a.pid) (insertByPidDesc r l) := by
  induction l with
  | nil => simp [insertByPidDesc]
  | cons a as ih =>
    rw [List.chain'_cons'] at h
    obtain ⟨ha, has⟩ := h
    simp only [insertByPidDesc]
    split_ifs with hle
    · rw [List.chain'_cons', List.chain'_cons']
      exact ⟨fun y hy => by simp at hy; subst hy; omega, ha, has⟩
    · rw [List.chain'_cons']
      refine ⟨fun y hy => ?_, ih has⟩
      rcases head_insertByPidDesc r as with hh | hh <;> rw [hh] at hy
      · simp at hy
        subst hy
        omega
      · exact ha y hy

theorem chain'_sortByPidDesc (l : List PendingRow) :
    List.Chain' (fun a b => b.pid ≤ a.pid) (sortByPidDesc l) := by
  induction l with
  | nil => simp [sortByPidDesc]
  | cons a as ih => exact chain'_insertByPidDesc a _ ih

/-- Membership in the pending list: exactly the payment/user join rows with a
currently-pending owner. -/
theorem mem_list_pending_payments {db : DB} {r : PendingRow} :
    r ∈ list_pending_payments db ↔
      ∃ p ∈ db.payments, ∃ u ∈ db.users,
        u.id = p.user_id ∧ u.payment_status = some "pending" ∧ r = pendingRow p u := by
  simp only [list_pending_payments, mem_sortByPidDesc, List.mem_flatMap,
    List.mem_map, List.mem_filter, decide_eq_true_eq]
  constructor
  · rintro ⟨p, hp, u, ⟨hu, hid, hst⟩, rfl⟩
    exact ⟨p, hp, u, hu, hid, hst, rfl⟩
  · rintro ⟨p, hp, u, hu, hid, hst, rfl⟩
    exact ⟨p, hp, u, ⟨hu, hid, hst⟩, rfl⟩

theorem map_updateUser_of_preserved {α : Type} (F : User → α) (db : DB) (uid : Nat)
    (f : User → User) (hf : ∀ u, F (f u) = F u) :
    (updateUser db uid f).users.map F = db.users.map F := by
  simp only [updateUser, List.map_map]
  apply List.map_congr_left
  intro u _
  by_cases h : u.id = uid <;> simp [h, hf]

theorem mem_updateUser_of_mem (db : DB) (uid : Nat) (f : User → User) (u : User)
    (hu : u ∈ db.users) (hid : u.id = uid) :
    f u ∈ (updateUser db uid f).users := by
  simp only [updateUser, List.mem_map]
  exact ⟨u, hu, by rw [if_pos hid]⟩

theorem mem_updateUser_of_ne (db : DB) (uid : Nat) (f : User → User) (u : User)
    (hu : u ∈ db.users) (hne : u.id ≠ uid) :
    u ∈ (updateUser db uid f).users := by
  simp only [updateUser, List.mem_map]
  exact ⟨u, hu, by rw [if_neg hne]⟩

theorem eq_of_mem_updateUser (db : DB) (uid : Nat) (f : User → User) :
    ∀ u' ∈ (updateUser db uid f).users, u'.id = uid →
      ∃ u ∈ db.users, u.id = uid ∧ u' = f u := by
  intro u' hu' hid
  simp only [updateUser, List.mem_map] at hu'
  obtain ⟨u, hu, rfl⟩ := hu'
  by_cases h : u.id = uid
  · exact ⟨u, hu, h, by rw [if_pos h]⟩
  · rw [if_neg h] at hid
    exact absurd hid h

/-! ## Concrete sample data for witnesses and counterexamples -/

/-- A subscriber whose annual window ends on 2025-06-13. -/
def sampleUser : User :=
  { id := 1
    full_name := "Ada Obi"
    email := "ada@example.com"
    password_hash := generate_password_hash "pw1"
    is_admin := false
    plan := some "ANNUAL"
    subscription_start := some "2024-06-14"
    subscription_end := some "2025-06-13"
    is_premium := true
    last_payment_amount := some 35000
    last_payment_currency := some "NGN"
    last_payment_provider := some "manual"
    payment_status := some "active" }

/-- A never-paid free-tier user. -/
def freeUser : User :=
  { id := 2
    full_name := "Bisi Ade"
    email := "bisi@example.com"
    password_hash := generate_password_hash "pw2"
    is_admin := false
    plan := some "FREE"
    subscription_start := none
    subscription_end := none
    is_premium := false
    last_payment_amount := none
    last_payment_currency := none
    last_payment_provider := none
    payment_status := none }

/-- A lapsed subscriber whose window ended on 2025-05-31 (10 days before the
reference `today` below, past the 7-day grace). -/
def expiredUser : User :=
  { id := 3
    full_name := "Chika Eze"
    email := "chika@example.com"
    password_hash := generate_password_hash "pw3"
    is_admin := false
    plan := some "ANNUAL"
    subscription_start := some "2024-06-01"
    subscription_end := some "2025-05-31"
    is_premium := true
    last_payment_amount := some 35000
    last_payment_currency := some "NGN"
    last_payment_provider := some "manual"
    payment_status := some "active" }

/-- Reference `today` for the concrete scenarios: 2025-06-10 as a day number. -/
def today0 : Int := toDayNumber ⟨2025, 6, 10⟩

/-- A one-user store: `freeUser` only, no payments yet. -/
def db0 : DB :=
  { users := [freeUser], payments := [], nextUserId := 3, nextPaymentId := 1 }

/-! ## Claim C1 — subscription-status classification -/

/-- C1: for every user, `compute_subscription_status` returns `"active"` when
`today ≤ subscription_end` (boundary inclusive), `"grace"` when
`subscription_end < today ≤ subscription_end + GRACE_DAYS`, `"expired"`
otherwise; and when `subscription_end` is missing or not a parseable ISO date
it returns `"expired"` (fails closed, total function — never raises).
`g` is the configured non-negative `GRACE_DAYS` constant. -/
theorem C1_subscription_status_classification (g today : Int) (u : User)
    (hg : 0 ≤ g) :
    ((u.subscription_end = none ∨
        ∀ s, u.subscription_end = some s → fromisoformat s = none) →
      compute_subscription_status g today u = "expired") ∧
    (∀ s e, u.subscription_end = some s → fromisoformat s = some e →
      (today ≤ toDayNumber e →
        compute_subscription_status g today u = "active") ∧
      (toDayNumber e < today → today ≤ toDayNumber e + g →
        compute_subscription_status g today u = "grace") ∧
      (toDayNumber e + g < today →
        compute_subscription_status g today u = "expired")) := by
  constructor
  · intro h
    cases hse : u.subscription_end with
    | none => simp [compute_subscription_status, hse]
    | some s =>
      rcases h with h | h
      · rw [hse] at h
        cases h
      · have hnone := h s hse
        by_cases hs0 : s = ""
        · simp [compute_subscription_status, hse, hs0]
        · simp [compute_subscription_status, hse, hs0, hnone]
  · intro s e hs he
    have hs0 : s ≠ "" := by
      intro h
      rw [h, fromisoformat_empty] at he
      cases he
    refine ⟨fun h1 => ?_, fun h1 h2 => ?_, fun h1 => ?_⟩ <;>
      simp only [compute_subscription_status, hs, he, if_neg hs0]
    · rw [if_pos h1]
    · rw [if_neg (by omega), if_pos h2]
    · rw [if_neg (by omega), if_neg (by omega)]

/-- Witness for C1 at a concrete input: `sampleUser`'s end date 2025-06-13
parses, and three days before it the status is `"active"`. -/
theorem C1_subscription_status_classification_witness :
    fromisoformat "2025-06-13" = some ⟨2025, 6, 13⟩ ∧
    compute_subscription_status GRACE_DAYS today0 sampleUser = "active" :=
  ⟨by decide,
    ((C1_subscription_status_classification GRACE_DAYS today0 sampleUser
        (by decide)).2
      "2025-06-13" ⟨2025, 6, 13⟩ rfl (by decide)).1 (by decide)⟩

/-! ## Claim C2 — FREE plan: view always allowed, upload capped at 5 -/

/-- C2: a user with effective plan FREE is never locked — the VIEW gate and
the page guard always allow, regardless of subscription fields — and the
UPLOAD gate allows exactly when `used < FREE_LIMIT` and denies with the
limit-reached message when `used ≥ FREE_LIMIT`. -/
theorem C2_free_plan_decisions (g today : Int) (u : User) (used : Nat)
    (hfree : effectivePlan u = "FREE") :
    view_decision g today u = Decision.allow ∧
    guard_access g today u = Decision.allow ∧
    (used < FREE_LIMIT → upload_decision g today u used = Decision.allow) ∧
    (FREE_LIMIT ≤ used → upload_decision g today u used =
      Decision.deny "free limit reached — upgrade/subscribe to continue uploading") := by
  refine ⟨?_, ?_, fun h => ?_, fun h => ?_⟩
  · simp [view_decision, hfree]
  · simp [guard_access, hfree]
  · have h5 : used < 5 := h
    simp [upload_decision, hfree, FREE_LIMIT, Nat.not_le.mpr h5]
  · have h5 : 5 ≤ used := h
    simp [upload_decision, hfree, FREE_LIMIT, h5]

/-- Witness for C2 at a concrete input: `freeUser` with 5 documents may view
but not upload; with 4 documents may upload. -/
theorem C2_free_plan_decisions_witness :
    view_decision GRACE_DAYS today0 freeUser = Decision.allow ∧
    upload_decision GRACE_DAYS today0 freeUser 4 = Decision.allow ∧
    upload_decision GRACE_DAYS today0 freeUser 5 =
      Decision.deny "free limit reached — upgrade/subscribe to continue uploading" :=
  ⟨(C2_free_plan_decisions GRACE_DAYS today0 freeUser 5 (by decide)).1,
    (C2_free_plan_decisions GRACE_DAYS today0 freeUser 4 (by decide)).2.2.1 (by decide),
    (C2_free_plan_decisions GRACE_DAYS today0 freeUser 5 (by decide)).2.2.2 (by decide)⟩

/-! ## Claim C3 — expired subscribers are hard-locked on view and upload -/

/-- C3: a user whose effective plan is not FREE and whose subscription status
computes to `"expired"` (past grace, or no valid end date) is denied by the
VIEW gate, by the page guard and by the UPLOAD gate at every document
count. -/
theorem C3_expired_subscriber_locked (g today : Int) (u : User)
    (hplan : effectivePlan u ≠ "FREE")
    (hexp : compute_subscription_status g today u = "expired") :
    view_decision g today u =
      Decision.deny "subscription expired — locked until admin confirms renewal" ∧
    guard_access g today u =
      Decision.deny "subscription expired — access locked until payment confirmed by admin" ∧
    ∀ used, upload_decision g today u used =
      Decision.deny "subscription expired — uploads disabled until admin confirms renewal" := by
  refine ⟨?_, ?_, fun used => ?_⟩
  · simp [view_decision, hplan, hexp]
  · simp [guard_access, hplan, hexp]
  · simp [upload_decision, hplan, hexp]

/-- Witness for C3 at a concrete input: `expiredUser` (ANNUAL, ended 10 days
ago, grace 7) is denied on view and upload even with zero documents. -/
theorem C3_expired_subscriber_locked_witness :
    view_decision GRACE_DAYS today0 expiredUser =
      Decision.deny "subscription expired — locked until admin confirms renewal" ∧
    upload_decision GRACE_DAYS today0 expiredUser 0 =
      Decision.deny "subscription expired — uploads disabled until admin confirms renewal" :=
  ⟨(C3_expired_subscriber_locked GRACE_DAYS today0 expiredUser (by decide) (by decide)).1,
    (C3_expired_subscriber_locked GRACE_DAYS today0 expiredUser (by decide)
      (by decide)).2.2 0⟩

/-! ## Claim C9 — near-expiry active subscribers: no warning is attached -/

/-- C9 counterexample: `sampleUser` is ANNUAL and active with
`days_left = 3 ≤ 7`, yet both the VIEW gate and the UPLOAD gate return plain
`allow` — not `allowWithWarning` as the claim states (the dashboard shows a
success banner, and the upload page attaches no renewal reminder). -/
theorem C9_counterexample :
    compute_subscription_status GRACE_DAYS today0 sampleUser = "active" ∧
    subscription_days_left today0 sampleUser = 3 ∧
    view_decision GRACE_DAYS today0 sampleUser = Decision.allow ∧
    upload_decision GRACE_DAYS today0 sampleUser 0 = Decision.allow := by
  decide

/-- C9 (amended): for every user with effective plan ≠ FREE whose status is
`"active"`, the VIEW and UPLOAD decisions are plain `allow` — even when
`days_left ≤ 7`. No renewal warning is attached to an active subscriber's
access decisions (`allowWithWarning` occurs only in the grace period). -/
theorem C9_active_always_plain_allow (g today : Int) (u : User)
    (hplan : effectivePlan u ≠ "FREE")
    (hactive : compute_subscription_status g today u = "active") :
    view_decision g today u = Decision.allow ∧
    ∀ used, upload_decision g today u used = Decision.allow := by
  constructor
  · simp [view_decision, hplan, hactive]
  · intro used
    simp [upload_decision, hplan, hactive]

/-- Witness for the amended C9 at a concrete input: `sampleUser`, three days
from expiry, is plainly allowed to view and to upload with 10 documents. -/
theorem C9_active_always_plain_allow_witness :
    subscription_days_left today0 sampleUser = 3 ∧
    view_decision GRACE_DAYS today0 sampleUser = Decision.allow ∧
    upload_decision GRACE_DAYS today0 sampleUser 10 = Decision.allow :=
  ⟨by decide,
    (C9_active_always_plain_allow GRACE_DAYS today0 sampleUser (by decide)
      (by decide)).1,
    (C9_active_always_plain_allow GRACE_DAYS today0 sampleUser (by decide)
      (by decide)).2 10⟩

/-! ## Claim C5 — non-admin identities cannot approve or reject -/

/-- C5: for every identity that is not an admin (session flag unset and email
not in the configured allow-list), both admin-panel mutations stop with the
access-denied error and leave the store untouched. -/
theorem C5_non_admin_denied (adminEmails : List String) (sessionFlag : Bool)
    (currentUser : Option User) (db : DB) (puid : Option Nat)
    (start «end» : Date) (amount : Int) (currency provider : String)
    (hflag : sessionFlag = false)
    (hmail : is_admin_email adminEmails (currentUser.map (·.email)) = false) :
    admin_approve adminEmails sessionFlag currentUser db puid start «end» amount
        currency provider =
      { db := db, error := some "Access denied. Admins only." } ∧
    admin_reject adminEmails sessionFlag currentUser db puid =
      { db := db, error := some "Access denied. Admins only." } := by
  have hna : is_current_admin adminEmails sessionFlag currentUser = false := by
    simp [is_current_admin, hflag, hmail]
  constructor
  · simp [admin_approve, hna]
  · simp [admin_reject, hna]

/-- Witness for C5 at a concrete input: `freeUser` (not in the allow-list)
attempting to approve their own payment is denied and `db0` is unchanged. -/
theorem C5_non_admin_denied_witness :
    is_admin_email ["chumcred@gmail.com"] ((some freeUser).map (·.email)) = false ∧
    admin_approve ["chumcred@gmail.com"] false (some freeUser) db0 (some 2)
        ⟨2025, 1, 1⟩ ⟨2026, 1, 1⟩ 35000 "NGN" "manual" =
      { db := db0, error := some "Access denied. Admins only." } ∧
    admin_reject ["chumcred@gmail.com"] false (some freeUser) db0 (some 2) =
      { db := db0, error := some "Access denied. Admins only." } :=
  ⟨by decide,
    (C5_non_admin_denied ["chumcred@gmail.com"] false (some freeUser) db0
      (some 2) ⟨2025, 1, 1⟩ ⟨2026, 1, 1⟩ 35000 "NGN" "manual" rfl (by decide)).1,
    (C5_non_admin_denied ["chumcred@gmail.com"] false (some freeUser) db0
      (some 2) ⟨2025, 1, 1⟩ ⟨2026, 1, 1⟩ 35000 "NGN" "manual" rfl (by decide)).2⟩

/-! ## Claim C7 — payment submission performs no validation -/

/-- C7 counterexample: submitting with `amount = -1` and an empty reference
does not raise — it creates the submission record and marks the user pending,
contradicting the claimed `ValidationError` behaviour. -/
theorem C7_counterexample :
    ((record_payment_submission db0 2 "manual" "NGN" (-1) "").payments.map
        fun p => (p.amount, p.reference)) = [(-1, "")] ∧
    ((record_payment_submission db0 2 "manual" "NGN" (-1) "").users.map
        (·.payment_status)) = [some "pending"] := by
  decide

/-- C7 (amended): `record_payment_submission` validates nothing — for every
amount (including non-positive) and every reference (including empty) it
appends an immutable submission record with exactly the submitted values,
preserves all earlier records, and sets the owner's `payment_status` to
`'pending'`, leaving other users untouched. -/
theorem C7_submit_never_validates (db : DB) (uid : Nat)
    (provider currency : String) (amount : Int) (reference : String) :
    (∃ p ∈ (record_payment_submission db uid provider currency amount
        reference).payments,
      p.id = db.nextPaymentId ∧ p.user_id = uid ∧ p.amount = amount ∧
      p.reference = reference) ∧
    (∀ p ∈ db.payments,
      p ∈ (record_payment_submission db uid provider currency amount
        reference).payments) ∧
    (∀ u' ∈ (record_payment_submission db uid provider currency amount
        reference).users,
      u'.id = uid → u'.payment_status = some "pending") ∧
    (∀ u ∈ db.users, u.id ≠ uid →
      u ∈ (record_payment_submission db uid provider currency amount
        reference).users) := by
  refine ⟨?_, ?_, ?_, ?_⟩
  · refine ⟨⟨db.nextPaymentId, uid, provider, currency, amount, reference, none⟩,
      ?_, rfl, rfl, rfl, rfl⟩
    simp [record_payment_submission, updateUser]
  · intro p hp
    simp only [record_payment_submission, updateUser]
    simp only [List.mem_append]
    exact Or.inl hp
  · intro u' hu' hid
    simp only [record_payment_submission] at hu'
    obtain ⟨u, _, _, rfl⟩ := eq_of_mem_updateUser _ _ _ u' hu' hid
    rfl
  · intro u hu hne
    simp only [record_payment_submission]
    exact mem_updateUser_of_ne _ uid _ u hu hne

/-- Witness for the amended C7 at a concrete input: the invalid submission
(amount −1, empty reference) is recorded and the user marked pending. -/
theorem C7_submit_never_validates_witness :
    (∃ p ∈ (record_payment_submission db0 2 "manual" "NGN" (-1) "").payments,
      p.id = 1 ∧ p.user_id = 2 ∧ p.amount = -1 ∧ p.reference = "") ∧
    (∀ u' ∈ (record_payment_submission db0 2 "manual" "NGN" (-1) "").users,
      u'.id = 2 → u'.payment_status = some "pending") :=
  ⟨(C7_submit_never_validates db0 2 "manual" "NGN" (-1) "").1,
    (C7_submit_never_validates db0 2 "manual" "NGN" (-1) "").2.2.1⟩

/-! ## Claim C8 — approval performs no start/end ordering check -/

/-- C8 counterexample: an approval whose end date (2025-01-01) precedes its
start date (2025-01-10) does not raise `ValidationError` — the ledger is
updated with the inverted window, contradicting the claimed rejection. -/
theorem C8_counterexample :
    ((set_subscription db0 2 ⟨2025, 1, 10⟩ ⟨2025, 1, 1⟩ 35000 "NGN"
        "manual").users.map
      fun u => (u.plan, u.subscription_start, u.subscription_end,
        u.payment_status)) =
      [(some "ANNUAL", some "2025-01-10", some "2025-01-01", some "active")] := by
  decide

/-- C8 (amended): `set_subscription` does not validate date order — even when
`end_date` is strictly before `start_date` it writes the (inverted)
subscription window, sets the plan to ANNUAL and marks the payment active,
raising nothing. -/
theorem C8_approve_never_validates_dates (db : DB) (uid : Nat)
    (start «end» : Date) (amount : Int) (currency provider : String)
    (_hlt : toDayNumber «end» < toDayNumber start) :
    ∀ u' ∈ (set_subscription db uid start «end» amount currency provider).users,
      u'.id = uid →
        u'.plan = some "ANNUAL" ∧
        u'.subscription_start = some (isoformat start) ∧
        u'.subscription_end = some (isoformat «end») ∧
        u'.payment_status = some "active" := by
  intro u' hu' hid
  simp only [set_subscription] at hu'
  obtain ⟨u, _, _, rfl⟩ := eq_of_mem_updateUser _ _ _ u' hu' hid
  exact ⟨rfl, rfl, rfl, rfl⟩

/-- The concrete ledger row produced by the inverted-window approval above. -/
def invertedWindowUser : User :=
  { freeUser with
    plan := some "ANNUAL"
    subscription_start := some (isoformat ⟨2025, 1, 10⟩)
    subscription_end := some (isoformat ⟨2025, 1, 1⟩)
    is_premium := true
    last_payment_amount := some 35000
    last_payment_currency := some "NGN"
    last_payment_provider := some "manual"
    payment_status := some "active" }

/-- Witness for the amended C8 at a concrete input. -/
theorem C8_approve_never_validates_dates_witness :
    toDayNumber ⟨2025, 1, 1⟩ < toDayNumber ⟨2025, 1, 10⟩ ∧
    invertedWindowUser.plan = some "ANNUAL" ∧
    invertedWindowUser.subscription_end = some (isoformat ⟨2025, 1, 1⟩) :=
  ⟨by decide,
    (C8_approve_never_validates_dates db0 2 ⟨2025, 1, 10⟩ ⟨2025, 1, 1⟩ 35000
      "NGN" "manual" (by decide) invertedWindowUser (by decide) (by decide)).1,
    (C8_approve_never_validates_dates db0 2 ⟨2025, 1, 10⟩ ⟨2025, 1, 1⟩ 35000
      "NGN" "manual" (by decide) invertedWindowUser (by decide) (by decide)).2.2.1⟩

/-! ## Claim C10 — email uniqueness is an invariant -/

/-- C10: `create_user` returns `none` and leaves the store unchanged whenever
a user with the same email exists; it preserves distinctness of emails when it
does insert; and no other user-mutating operation changes any email — so email
uniqueness is an invariant preserved by every operation. -/
theorem C10_email_uniqueness_invariant (db : DB)
    (full_name email password : String) (adm : Bool) :
    ((∃ u ∈ db.users, u.email = email) →
      create_user db full_name email password adm = (db, none)) ∧
    ((db.users.map (·.email)).Nodup →
      ((create_user db full_name email password adm).1.users.map
        (·.email)).Nodup) ∧
    (∀ uid pwd, (update_password db uid pwd).users.map (·.email) =
      db.users.map (·.email)) ∧
    (∀ uid, (update_emergency_contact db uid).users.map (·.email) =
      db.users.map (·.email)) ∧
    (∀ uid flag, (set_admin_flag db uid flag).users.map (·.email) =
      db.users.map (·.email)) ∧
    (∀ uid status, (update_payment_status db uid status).users.map (·.email) =
      db.users.map (·.email)) ∧
    (∀ uid prov curr amt ref,
      (record_payment_submission db uid prov curr amt ref).users.map (·.email) =
        db.users.map (·.email)) ∧
    (∀ uid start «end» amt curr prov,
      (set_subscription db uid start «end» amt curr prov).users.map (·.email) =
        db.users.map (·.email)) := by
  refine ⟨?_, ?_, ?_, ?_, ?_, ?_, ?_, ?_⟩
  · rintro ⟨u, hu, he⟩
    have hsome : (db.users.find? fun x => x.email = email).isSome := by
      rw [List.find?_isSome]
      exact ⟨u, hu, by simp [he]⟩
    obtain ⟨v, hv⟩ := Option.isSome_iff_exists.mp hsome
    simp [create_user, get_user_by_email, hv]
  · intro hnd
    cases hfind : db.users.find? fun x => x.email = email with
    | some v => simp [create_user, get_user_by_email, hfind]; exact hnd
    | none =>
      have hnotmem : ∀ x ∈ db.users, x.email ≠ email := by
        intro x hx
        have := List.find?_eq_none.mp hfind x hx
        simpa using this
      simp only [create_user, get_user_by_email, hfind, List.map_append,
        List.map_cons, List.map_nil]
      rw [List.nodup_append]
      refine ⟨hnd, List.nodup_singleton _, ?_⟩
      intro a ha hb
      simp only [List.mem_singleton] at hb
      simp only [List.mem_map] at ha
      obtain ⟨x, hx, rfl⟩ := ha
      exact hnotmem x hx hb
  · intro uid pwd
    exact map_updateUser_of_preserved _ _ _ _ fun u => rfl
  · intro uid
    exact map_updateUser_of_preserved _ _ _ _ fun u => rfl
  · intro uid flag
    exact map_updateUser_of_preserved _ _ _ _ fun u => rfl
  · intro uid status
    exact map_updateUser_of_preserved _ _ _ _ fun u => rfl
  · intro uid prov curr amt ref
    simp only [record_payment_submission]
    exact map_updateUser_of_preserved _ _ _ _ fun u => rfl
  · intro uid start «end» amt curr prov
    simp only [set_subscription]
    exact map_updateUser_of_preserved _ _ _ _ fun u => rfl

/-- Witness for C10 at concrete inputs: re-registering `freeUser`'s email is
refused and changes nothing; registering a fresh email keeps emails
distinct. -/
theorem C10_email_uniqueness_invariant_witness :
    create_user db0 "Someone Else" "bisi@example.com" "hunter2" false =
      (db0, none) ∧
    ((create_user db0 "New Person" "new@example.com" "pw9" false).1.users.map
      (·.email)).Nodup :=
  ⟨(C10_email_uniqueness_invariant db0 "Someone Else" "bisi@example.com"
      "hunter2" false).1 ⟨freeUser, by decide, by decide⟩,
    (C10_email_uniqueness_invariant db0 "New Person" "new@example.com" "pw9"
      false).2.1 (by decide)⟩

/-! ## Claim C4 — admin approval: atomic effect, only path, upload unlocked -/

/-- C4 counterexample: a well-formed admin approval whose end date
(2025-05-31) lies more than `GRACE_DAYS` before `today` (2025-06-10) succeeds
and sets the plan to ANNUAL, yet the UPLOAD decision at document count 0 is
`deny`, not `allow` — refuting "afterwards the UPLOAD decision is ALLOW
regardless of document count". -/
theorem C4_counterexample :
    (admin_approve ["chumcred@gmail.com"] true none db0 (some 2)
        ⟨2024, 6, 1⟩ ⟨2025, 5, 31⟩ 35000 "NGN" "manual").error = none ∧
    ((admin_approve ["chumcred@gmail.com"] true none db0 (some 2)
        ⟨2024, 6, 1⟩ ⟨2025, 5, 31⟩ 35000 "NGN" "manual").db.users.map
      fun u => (u.plan, upload_decision GRACE_DAYS today0 u 0)) =
      [(some "ANNUAL",
        Decision.deny
          "subscription expired — uploads disabled until admin confirms renewal")] := by
  decide

/-- C4 (amended): admin approval updates, in the one `set_subscription`
UPDATE, the user's plan to ANNUAL, the subscription window to
`[start, end]` and `payment_status` to `'active'`; afterwards the UPLOAD
decision for that user is `allow` regardless of document count, provided
`today` is not past the approved end date; and no other ledger operation
writes `plan` or `subscription_end` (new users start FREE with no end
date). -/
theorem C4_admin_approval (db : DB) (uid : Nat) (start «end» : Date)
    (amount : Int) (currency provider : String) (g today : Int)
    (hvalid : validDate «end».year «end».month «end».day = true)
    (htoday : today ≤ toDayNumber «end») :
    (∀ u' ∈ (set_subscription db uid start «end» amount currency
        provider).users,
      u'.id = uid →
        u'.plan = some "ANNUAL" ∧
        u'.subscription_start = some (isoformat start) ∧
        u'.subscription_end = some (isoformat «end») ∧
        u'.payment_status = some "active" ∧
        ∀ used, upload_decision g today u' used = Decision.allow) ∧
    (∀ uid' pwd, ((update_password db uid' pwd).users.map
        fun u => (u.plan, u.subscription_end)) =
      db.users.map fun u => (u.plan, u.subscription_end)) ∧
    (∀ uid', ((update_emergency_contact db uid').users.map
        fun u => (u.plan, u.subscription_end)) =
      db.users.map fun u => (u.plan, u.subscription_end)) ∧
    (∀ uid' flag, ((set_admin_flag db uid' flag).users.map
        fun u => (u.plan, u.subscription_end)) =
      db.users.map fun u => (u.plan, u.subscription_end)) ∧
    (∀ uid' status, ((update_payment_status db uid' status).users.map
        fun u => (u.plan, u.subscription_end)) =
      db.users.map fun u => (u.plan, u.subscription_end)) ∧
    (∀ uid' prov curr amt ref,
      ((record_payment_submission db uid' prov curr amt ref).users.map
        fun u => (u.plan, u.subscription_end)) =
      db.users.map fun u => (u.plan, u.subscription_end)) ∧
    (∀ nm em pw adm,
      ((create_user db nm em pw adm).1.users.map
          fun u => (u.plan, u.subscription_end)) =
        db.users.map (fun u => (u.plan, u.subscription_end)) ∨
      ((create_user db nm em pw adm).1.users.map
          fun u => (u.plan, u.subscription_end)) =
        db.users.map (fun u => (u.plan, u.subscription_end)) ++
          [(some "FREE", none)]) := by
  refine ⟨?_, ?_, ?_, ?_, ?_, ?_, ?_⟩
  · intro u' hu' hid
    simp only [set_subscription] at hu'
    obtain ⟨u, _, _, rfl⟩ := eq_of_mem_updateUser _ _ _ u' hu' hid
    refine ⟨rfl, rfl, rfl, rfl, fun used => ?_⟩
    have hne := isoformat_ne_empty «end»
    have hrt := fromisoformat_isoformat «end» hvalid
    have hstat : compute_subscription_status g today
        { u with
          plan := some "ANNUAL"
          subscription_start := some (isoformat start)
          subscription_end := some (isoformat «end»)
          is_premium := true
          last_payment_amount := some amount
          last_payment_currency := some currency
          last_payment_provider := some provider
          payment_status := some "active" } = "active" := by
      simp only [compute_subscription_status, if_neg hne, hrt, if_pos htoday]
    simp [upload_decision, hstat, effectivePlan, pyUpper]
  · intro uid' pwd
    exact map_updateUser_of_preserved _ _ _ _ fun u => rfl
  · intro uid'
    exact map_updateUser_of_preserved _ _ _ _ fun u => rfl
  · intro uid' flag
    exact map_updateUser_of_preserved _ _ _ _ fun u => rfl
  · intro uid' status
    exact map_updateUser_of_preserved _ _ _ _ fun u => rfl
  · intro uid' prov curr amt ref
    simp only [record_payment_submission]
    exact map_updateUser_of_preserved _ _ _ _ fun u => rfl
  · intro nm em pw adm
    cases hfind : db.users.find? fun x => x.email = em with
    | some v =>
      left
      simp [create_user, get_user_by_email, hfind]
    | none =>
      right
      simp [create_user, get_user_by_email, hfind]

/-- The ledger row produced by the concrete approval in the C4 witness. -/
def approvedUser : User :=
  { freeUser with
    plan := some "ANNUAL"
    subscription_start := some (isoformat ⟨2025, 1, 1⟩)
    subscription_end := some (isoformat ⟨2026, 1, 1⟩)
    is_premium := true
    last_payment_amount := some 35000
    last_payment_currency := some "NGN"
    last_payment_provider := some "manual"
    payment_status := some "active" }

/-- Witness for the amended C4 at a concrete input: after approval with a
window ending 2026-01-01, `freeUser` is ANNUAL and may upload with 100
documents on 2025-06-10. -/
theorem C4_admin_approval_witness :
    validDate 2026 1 1 = true ∧
    approvedUser.plan = some "ANNUAL" ∧
    upload_decision GRACE_DAYS today0 approvedUser 100 = Decision.allow :=
  ⟨by decide,
    ((C4_admin_approval db0 2 ⟨2025, 1, 1⟩ ⟨2026, 1, 1⟩ 35000 "NGN" "manual"
        GRACE_DAYS today0 (by decide) (by decide)).1 approvedUser (by decide)
      (by decide)).1,
    ((C4_admin_approval db0 2 ⟨2025, 1, 1⟩ ⟨2026, 1, 1⟩ 35000 "NGN" "manual"
        GRACE_DAYS today0 (by decide) (by decide)).1 approvedUser (by decide)
      (by decide)).2.2.2.2 100⟩

/-! ## Claim C6 — submit / list_pending / approve round trip -/

/-- C6: immediately after a submission the new record appears in the pending
list (whose rows all carry payment ids at most the new one, and which is
sorted newest-first); after the approval writes (`set_subscription` then
`update_payment_status 'active'`) for that user, no submission of theirs
appears in the pending list any more. -/
theorem C6_submit_pending_roundtrip (db : DB) (uid : Nat)
    (provider currency : String) (amount : Int) (reference : String) (u : User)
    (hu : u ∈ db.users) (hid : u.id = uid)
    (hfresh : ∀ p ∈ db.payments, p.id < db.nextPaymentId) :
    (∃ r ∈ list_pending_payments
        (record_payment_submission db uid provider currency amount reference),
      r.pid = db.nextPaymentId ∧ r.user_id = uid ∧ r.amount = amount ∧
      r.reference = reference) ∧
    (∀ r ∈ list_pending_payments
        (record_payment_submission db uid provider currency amount reference),
      r.pid ≤ db.nextPaymentId) ∧
    List.Chain' (fun a b => b.pid ≤ a.pid)
      (list_pending_payments
        (record_payment_submission db uid provider currency amount reference)) ∧
    (∀ (start «end» : Date) (amt : Int) (curr prov : String),
      ∀ r ∈ list_pending_payments
        (update_payment_status
          (set_subscription
            (record_payment_submission db uid provider currency amount
              reference)
            uid start «end» amt curr prov)
          uid "active"),
        r.user_id ≠ uid) := by
  refine ⟨?_, ?_, ?_, ?_⟩
  · refine ⟨pendingRow
        ⟨db.nextPaymentId, uid, provider, currency, amount, reference, none⟩
        { u with payment_status := some "pending" }, ?_, rfl, rfl, rfl, rfl⟩
    rw [mem_list_pending_payments]
    refine ⟨⟨db.nextPaymentId, uid, provider, currency, amount, reference,
      none⟩, ?_, { u with payment_status := some "pending" }, ?_, hid, rfl,
      rfl⟩
    · simp [record_payment_submission, updateUser]
    · simp only [record_payment_submission]
      exact mem_updateUser_of_mem _ uid _ u hu hid
  · intro r hr
    rw [mem_list_pending_payments] at hr
    obtain ⟨p, hp, v, _, _, _, rfl⟩ := hr
    have hp' : p ∈ db.payments ++
        [⟨db.nextPaymentId, uid, provider, currency, amount, reference,
          none⟩] := by
      simpa [record_payment_submission, updateUser] using hp
    rw [List.mem_append] at hp'
    rcases hp' with h | h
    · exact le_of_lt (hfresh p h)
    · simp only [List.mem_singleton] at h
      subst h
      exact le_refl _
  · simp only [list_pending_payments]
    exact chain'_sortByPidDesc _
  · intro start «end» amt curr prov r hr
    rw [mem_list_pending_payments] at hr
    obtain ⟨p, _, v, hv, hvid, hst, rfl⟩ := hr
    intro huid
    simp only [pendingRow] at huid
    rw [huid] at hvid
    simp only [update_payment_status] at hv
    obtain ⟨w, _, _, rfl⟩ := eq_of_mem_updateUser _ _ _ v hv hvid
    simp at hst

/-- Witness for C6 at a concrete input: `freeUser` submits NGN 35000 with
reference "ABC123"; the submission shows up in the pending list, and after
approval it is gone. -/
theorem C6_submit_pending_roundtrip_witness :
    (∃ r ∈ list_pending_payments
        (record_payment_submission db0 2 "manual" "NGN" 35000 "ABC123"),
      r.pid = 1 ∧ r.user_id = 2 ∧ r.amount = 35000 ∧ r.reference = "ABC123") ∧
    (∀ r ∈ list_pending_payments
        (update_payment_status
          (set_subscription
            (record_payment_submission db0 2 "manual" "NGN" 35000 "ABC123")
            2 ⟨2025, 1, 1⟩ ⟨2026, 1, 1⟩ 35000 "NGN" "manual")
          2 "active"),
      r.user_id ≠ 2) :=
  ⟨(C6_submit_pending_roundtrip db0 2 "manual" "NGN" 35000 "ABC123" freeUser
      (by decide) rfl (by decide)).1,
    (C6_submit_pending_roundtrip db0 2 "manual" "NGN" 35000 "ABC123" freeUser
      (by decide) rfl (by decide)).2.2.2 ⟨2025, 1, 1⟩ ⟨2026, 1, 1⟩ 35000 "NGN"
      "manual"⟩

end Vault
